import Mathlib

/-!
Shallow embedding of the Kubernetes access layer of PlatformOps-2.0
(`apps/api/app/services/kubernetes.py`, `apps/api/app/api/v1/kubernetes.py`,
`apps/api/app/core/config.py`).

Conventions of the embedding:
* Python exceptions are modelled with `Option`/`Except`: a function that can
  raise returns `none`/`Except.error` on the raising path.
* Machine floats are modelled as `ℚ`; every value the verified claims touch
  is an exact decimal, so the rational model agrees with IEEE float64 there.
* Python dict results are modelled as association lists in insertion order.
* Wall-clock timestamps (`created_at`, `restartedAt`) are modelled as opaque
  string parameters or omitted where no claim depends on them.
-/

namespace PlatformOps

/-- Numeric value of a list of decimal digit characters, most significant
first: the common core of Python `int()` and `float()` on digit runs. -/
def digitsVal (l : List Char) : ℕ :=
  l.foldl (fun a c => 10 * a + (c.toNat - 48)) 0

/-- Model of Python `str.endswith(suffix)` on the character sequence (the
built-in `String.endsWith` is avoided only because its byte-position
machinery does not reduce inside kernel-checked evaluation). -/
def strEndsWith (s suf : String) : Bool :=
  suf.toList.isSuffixOf s.toList

/-- Model of Python slicing `s[:-n]`: drop the last `n` characters. -/
def strDropRight (s : String) (n : ℕ) : String :=
  String.mk (s.toList.take (s.toList.length - n))

/-- Model of Python `str.isdigit()`: nonempty and all characters decimal
digits (the unicode digit classes beyond ASCII do not occur in Kubernetes
quantity strings and are not modelled). -/
def isDigitStr (s : String) : Bool :=
  !s.toList.isEmpty && s.toList.all Char.isDigit

/-- Syntactic part of Python `float(s)` on plain decimal literals: optional
sign, an integer digit run, an optional `.` followed by a fraction digit run,
at least one digit overall. Returns the sign flag, integer-part value,
fraction value and fraction length; `none` models `float` raising
`ValueError`. Exponents, `inf`/`nan`, surrounding whitespace and `_`
separators are not modelled: none occur in Kubernetes quantity strings. -/
def pyFloatParse (s : String) : Option (Bool × ℕ × ℕ × ℕ) :=
  let t := s.toList
  let signed : Bool × List Char :=
    match t with
    | '-' :: r => (true, r)
    | '+' :: r => (false, r)
    | _ => (false, t)
  let intPart := signed.2.takeWhile Char.isDigit
  let rest := signed.2.dropWhile Char.isDigit
  match rest with
  | [] =>
      if intPart.isEmpty then none
      else some (signed.1, digitsVal intPart, 0, 0)
  | '.' :: frac =>
      if frac.all Char.isDigit && !(intPart.isEmpty && frac.isEmpty) then
        some (signed.1, digitsVal intPart, digitsVal frac, frac.length)
      else none
  | _ => none

/-- Rational value of a parsed decimal literal. -/
def floatVal (r : Bool × ℕ × ℕ × ℕ) : ℚ :=
  (if r.1 then -1 else 1) * ((r.2.1 : ℚ) + (r.2.2.1 : ℚ) / 10 ^ r.2.2.2)

/-- Model of Python `float(s)`: the parsed literal's rational value. -/
def pyFloat (s : String) : Option ℚ :=
  (pyFloatParse s).map floatVal

/-- Model of Python `int(s)` on decimal literals: optional sign followed by a
nonempty digit run; `none` models `int` raising `ValueError`. -/
def pyInt (s : String) : Option ℤ :=
  let t := s.toList
  let signed : ℤ × List Char :=
    match t with
    | '-' :: r => (-1, r)
    | '+' :: r => (1, r)
    | _ => (1, t)
  if signed.2.isEmpty || !signed.2.all Char.isDigit then none
  else some (signed.1 * (digitsVal signed.2 : ℤ))

/-- CPU-quantity parsing as inlined in `KubernetesService.get_node_metrics`
(kubernetes.py lines 486-492): suffix `n` divides the body by 1e9, suffix
`m` divides it by 1000, otherwise the whole string is parsed as float cores.
`none` models the `float` call raising on a malformed body. -/
def parse_cpu (cpu_str : String) : Option ℚ :=
  if strEndsWith cpu_str "n" then
    (pyFloat (strDropRight cpu_str 1)).map (fun x => x / 1000000000)
  else if strEndsWith cpu_str "m" then
    (pyFloat (strDropRight cpu_str 1)).map (fun x => x / 1000)
  else
    pyFloat cpu_str

/-- CPU-quantity parsing as inlined in `KubernetesService.get_pod_metrics`
(lines 600-606): identical to `parse_cpu` except that the unsuffixed branch
guards on truthiness (`float(cpu_str) if cpu_str else 0`), so the empty
string contributes 0 instead of raising. -/
def parse_cpu_pod (cpu_str : String) : Option ℚ :=
  if strEndsWith cpu_str "n" then
    (pyFloat (strDropRight cpu_str 1)).map (fun x => x / 1000000000)
  else if strEndsWith cpu_str "m" then
    (pyFloat (strDropRight cpu_str 1)).map (fun x => x / 1000)
  else if cpu_str.toList.isEmpty then some 0
  else pyFloat cpu_str

/-- Memory-quantity parsing as inlined in `get_node_metrics` (lines 495-503)
and `get_pod_metrics` (lines 609-617): suffixes `Ki`/`Mi`/`Gi` multiply the
integer body by 1024/1024²/1024³ (raising on a malformed body), an unsuffixed
all-digit string parses as integer bytes, and any other unsuffixed string
silently yields 0 (`int(mem_str) if mem_str.isdigit() else 0`). -/
def parse_memory (mem_str : String) : Option ℤ :=
  if strEndsWith mem_str "Ki" then
    (pyInt (strDropRight mem_str 2)).map (fun x => x * 1024)
  else if strEndsWith mem_str "Mi" then
    (pyInt (strDropRight mem_str 2)).map (fun x => x * (1024 * 1024))
  else if strEndsWith mem_str "Gi" then
    (pyInt (strDropRight mem_str 2)).map (fun x => x * (1024 * 1024 * 1024))
  else if isDigitStr mem_str then pyInt mem_str
  else some 0

/-- Memory-capacity parsing as inlined in `get_node_metrics` (lines 516-524):
same as `parse_memory` except the malformed unsuffixed fallback is 1, not 0
(`int(mem_capacity_str) if mem_capacity_str.isdigit() else 1`). -/
def parse_memory_capacity (s : String) : Option ℤ :=
  if strEndsWith s "Ki" then
    (pyInt (strDropRight s 2)).map (fun x => x * 1024)
  else if strEndsWith s "Mi" then
    (pyInt (strDropRight s 2)).map (fun x => x * (1024 * 1024))
  else if strEndsWith s "Gi" then
    (pyInt (strDropRight s 2)).map (fun x => x * (1024 * 1024 * 1024))
  else if isDigitStr s then pyInt s
  else some 1

/-- `ClusterStatus` enum from `app/schemas/kubernetes.py`. -/
inductive ClusterStatus where
  | connected
  | disconnected
  | error
  | unknown
deriving Repr, DecidableEq

/-- `ResourceStatus` enum from `app/schemas/kubernetes.py`. -/
inductive ResourceStatus where
  | healthy
  | warning
  | error
  | pending
  | unknown
deriving Repr, DecidableEq

/-- `PodPhase` enum from `app/schemas/kubernetes.py` (values `Pending`,
`Running`, `Succeeded`, `Failed`, `Unknown`). -/
inductive PodPhase where
  | pending
  | running
  | succeeded
  | failed
  | unknown
deriving Repr, DecidableEq

/-- `ClusterInfo` schema from `app/schemas/kubernetes.py` (defaults as
declared there). `server_url` is omitted: the service never sets it. -/
structure ClusterInfo where
  name : String
  context : String
  status : ClusterStatus
  version : Option String := none
  node_count : ℕ := 0
  namespace_count : ℕ := 0
  pod_count : ℕ := 0
  error : Option String := none
deriving Repr, DecidableEq

/-- `KubernetesService._get_demo_clusters` (kubernetes.py lines 635-653). -/
def _get_demo_clusters : List ClusterInfo :=
  [ { name := "demo-local"
      context := "demo-local"
      status := ClusterStatus.connected
      version := some "1.28"
      node_count := 3
      namespace_count := 8
      pod_count := 24 },
    { name := "demo-staging"
      context := "demo-staging"
      status := ClusterStatus.disconnected
      error := some "Demo cluster - not connected" } ]

/-- One entry of the context list returned by
`list_kube_config_contexts`: `ctx.get("name", "unknown")` and the resolved
`ctx.get("context", {}).get("cluster", ctx_name)` value. -/
structure KubeContext where
  name : String
  cluster : String
deriving Repr, DecidableEq

/-- The live data fetched for one context inside
`KubernetesService._get_cluster_info`: version major/minor and the three
resource counts. -/
structure ClusterStats where
  major : String
  minor : String
  node_count : ℕ
  namespace_count : ℕ
  pod_count : ℕ
deriving Repr, DecidableEq

/-- Environment of `KubernetesService.get_clusters`: the capability flag,
the resolved `settings.kubeconfig_path`, the filesystem, the result of
`list_kube_config_contexts` (`none` models it raising), and the per-context
live lookup done by `_get_cluster_info` (`Except.error e` models any of its
API calls raising with message `e`). -/
structure ClustersEnv where
  k8s_available : Bool
  kubeconfig_path : Option String
  path_exists : String → Bool
  list_contexts : Option (List KubeContext)
  live : String → Except String ClusterStats

/-- `KubernetesService._get_cluster_info` (kubernetes.py lines 141-193):
on success a connected `ClusterInfo` with version `f"{major}.{minor}"` and
counts; on any exception an entry with `status=ERROR` and `error=str(e)`. -/
def _get_cluster_info (env : ClustersEnv) (context : String) : ClusterInfo :=
  match env.live context with
  | Except.ok s =>
      { name := context
        context := context
        status := ClusterStatus.connected
        version := some (s.major ++ "." ++ s.minor)
        node_count := s.node_count
        namespace_count := s.namespace_count
        pod_count := s.pod_count }
  | Except.error e =>
      { name := context
        context := context
        status := ClusterStatus.error
        error := some e }

/-- `KubernetesService.get_clusters` (kubernetes.py lines 100-139): demo
fallback when the client library is unavailable, the kubeconfig path is
unset or missing, context enumeration raises, or it yields zero contexts;
otherwise one `_get_cluster_info` entry per context with `name` and
`context` overwritten from the context record. -/
def get_clusters (env : ClustersEnv) : List ClusterInfo :=
  if !env.k8s_available then _get_demo_clusters
  else
    match env.kubeconfig_path with
    | none => _get_demo_clusters
    | some path =>
      if !env.path_exists path then _get_demo_clusters
      else
        match env.list_contexts with
        | none => _get_demo_clusters
        | some contexts =>
          let clusters := contexts.map (fun ctx =>
            { _get_cluster_info env ctx.name with
                name := ctx.cluster, context := ctx.name })
          if clusters.isEmpty then _get_demo_clusters else clusters

/-- The default user-level kubeconfig location `Path.home() / ".kube" /
"config"` from `Settings.kubeconfig_path` (`app/core/config.py`). -/
def home_kubeconfig : String := "~/.kube/config"

/-- Environment of `KubernetesService._load_kubeconfig` and of
`Settings.kubeconfig_path`: capability flag, the `KUBECONFIG_DEFAULT`
setting, the filesystem, whether `load_incluster_config` succeeds, and
whether `load_kube_config` + `list_kube_config_contexts` succeed (with the
exception message when not). -/
structure LoadEnv where
  k8s_available : Bool
  kubeconfig_default : Option String
  path_exists : String → Bool
  in_cluster_ok : Bool
  load_kube_ok : Bool
  load_error : String

/-- `Settings.kubeconfig_path` (config.py lines 121-129): the configured
`KUBECONFIG_DEFAULT` if set, else the default user-level file when it
exists, else `None`. -/
def kubeconfig_path (env : LoadEnv) : Option String :=
  match env.kubeconfig_default with
  | some p => some p
  | none =>
      if env.path_exists home_kubeconfig then some home_kubeconfig else none

/-- `KubernetesService._load_kubeconfig` (kubernetes.py lines 58-98),
returning the `(success, error_message)` pair. In-cluster credentials are
tried only in the `kubeconfig_path is None` branch; a configured path that
does not exist on disk fails with the path-specific message. -/
def _load_kubeconfig (env : LoadEnv) : Bool × Option String :=
  if !env.k8s_available then (false, some "kubernetes package not installed")
  else
    match kubeconfig_path env with
    | none =>
      if env.in_cluster_ok then (true, none)
      else (false, some "No kubeconfig found and not running in-cluster")
    | some path =>
      if !env.path_exists path then
        (false, some ("Kubeconfig not found at " ++ path))
      else if env.load_kube_ok then (true, none)
      else (false, some env.load_error)

/-- `ContainerStatus` schema from `app/schemas/kubernetes.py`. -/
structure ContainerStatus where
  name : String
  ready : Bool
  restart_count : ℕ
  state : String
  image : String
deriving Repr, DecidableEq

/-- Raw container state from the Kubernetes API (`cs.state`): at most one of
`running` / `waiting(reason)` / `terminated(reason)` populated. -/
structure RawContainerState where
  running : Bool
  waiting_reason : Option String
  terminated_reason : Option String
deriving Repr, DecidableEq

/-- Raw per-container status (`cs`) as read in `get_pods`. -/
structure RawContainerStatus where
  name : String
  ready : Bool
  restart_count : ℕ
  state : RawContainerState
  image : String
deriving Repr, DecidableEq

/-- The state-string derivation of `get_pods` (kubernetes.py lines 298-304):
`running`, else `waiting: <reason>`, else `terminated: <reason>`, else
`unknown`. -/
def container_state_str (st : RawContainerState) : String :=
  if st.running then "running"
  else
    match st.waiting_reason with
    | some r => "waiting: " ++ r
    | none =>
      match st.terminated_reason with
      | some r => "terminated: " ++ r
      | none => "unknown"

/-- `PodInfo` schema from `app/schemas/kubernetes.py`; `ns` embeds the
`namespace` field (a Lean keyword), `created_at` is omitted (wall clock,
no claim depends on it), label maps are association lists. -/
structure PodInfo where
  name : String
  ns : String
  phase : PodPhase
  status : ResourceStatus
  node_name : Option String := none
  pod_ip : Option String := none
  containers : List ContainerStatus := []
  restart_count : ℕ := 0
  labels : List (String × String) := []
deriving Repr, DecidableEq

/-- The status derivation of `get_pods` (kubernetes.py lines 316-330): the
phase-derived value (Running/Succeeded healthy, Pending pending, Failed
error, else the initial UNKNOWN), overridden to WARNING when the summed
restart count exceeds 5. -/
def derive_pod_status (phase : PodPhase) (total_restarts : ℕ) : ResourceStatus :=
  let status :=
    match phase with
    | PodPhase.running => ResourceStatus.healthy
    | PodPhase.pending => ResourceStatus.pending
    | PodPhase.failed => ResourceStatus.error
    | PodPhase.succeeded => ResourceStatus.healthy
    | PodPhase.unknown => ResourceStatus.unknown
  if total_restarts > 5 then ResourceStatus.warning else status

/-- One raw pod as returned by the list-pods API call, restricted to the
fields `get_pods` reads. The phase is the schema enum: Kubernetes phases
are exactly its five values (`pod.status.phase or "Unknown"`). -/
structure RawPod where
  name : String
  ns : String
  phase : PodPhase
  node_name : Option String := none
  pod_ip : Option String := none
  container_statuses : List RawContainerStatus := []
  labels : List (String × String) := []
deriving Repr, DecidableEq

/-- The per-pod body of the `get_pods` loop (kubernetes.py lines 292-343):
container statuses, summed restarts, derived status. -/
def mkPodInfo (pod : RawPod) : PodInfo :=
  let containers := pod.container_statuses.map (fun cs =>
    { name := cs.name
      ready := cs.ready
      restart_count := cs.restart_count
      state := container_state_str cs.state
      image := cs.image : ContainerStatus })
  let total_restarts := (pod.container_statuses.map (fun cs => cs.restart_count)).sum
  { name := pod.name
    ns := pod.ns
    phase := pod.phase
    status := derive_pod_status pod.phase total_restarts
    node_name := pod.node_name
    pod_ip := pod.pod_ip
    containers := containers
    restart_count := total_restarts
    labels := pod.labels }

/-- `KubernetesService._get_demo_pods` (kubernetes.py lines 723-807), minus
the `created_at=now` timestamps. -/
def _get_demo_pods : List PodInfo :=
  [ { name := "nginx-deployment-abc123"
      ns := "default"
      phase := PodPhase.running
      status := ResourceStatus.healthy
      node_name := some "demo-worker-1"
      pod_ip := some "10.244.0.5"
      containers := [{ name := "nginx", ready := true, restart_count := 0,
                       state := "running", image := "nginx:1.25" }]
      restart_count := 0
      labels := [("app", "nginx"), ("tier", "frontend")] },
    { name := "api-server-xyz789"
      ns := "backend"
      phase := PodPhase.running
      status := ResourceStatus.healthy
      node_name := some "demo-worker-1"
      pod_ip := some "10.244.0.8"
      containers := [{ name := "api", ready := true, restart_count := 2,
                       state := "running", image := "myapp/api:v1.2.3" }]
      restart_count := 2
      labels := [("app", "api-server"), ("tier", "backend")] },
    { name := "redis-master-0"
      ns := "cache"
      phase := PodPhase.running
      status := ResourceStatus.healthy
      node_name := some "demo-worker-2"
      pod_ip := some "10.244.1.3"
      containers := [{ name := "redis", ready := true, restart_count := 0,
                       state := "running", image := "redis:7.2" }]
      restart_count := 0
      labels := [("app", "redis"), ("role", "master")] },
    { name := "crashloop-pod-def456"
      ns := "default"
      phase := PodPhase.running
      status := ResourceStatus.warning
      node_name := some "demo-worker-2"
      pod_ip := some "10.244.1.7"
      containers := [{ name := "buggy-app", ready := false, restart_count := 15,
                       state := "waiting: CrashLoopBackOff",
                       image := "myapp/buggy:latest" }]
      restart_count := 15
      labels := [("app", "buggy-app")] } ]

/-- `KubernetesService.get_pods` (kubernetes.py lines 264-349). `ns` is the
namespace filter: it only selects which API query produced `fetch` (scoped
or all-namespaces), and is not consulted on the fallback paths. `fetch` is
`none` when the live query raises. -/
def get_pods (load_success : Bool) (ns : Option String)
    (fetch : Option (List RawPod)) : List PodInfo :=
  if !load_success then _get_demo_pods
  else
    match fetch with
    | none => _get_demo_pods
    | some pods => pods.map mkPodInfo

/-- One deployment dict as built by `list_deployments` /
`_get_demo_deployments` (kubernetes.py lines 892-901, 1117-1158); `ns`
embeds the `namespace` key. -/
structure DeploymentEntry where
  name : String
  ns : String
  replicas : ℤ
  available_replicas : ℤ
  ready_replicas : ℤ
  updated_replicas : ℤ
  image : String
  strategy : String
deriving Repr, DecidableEq

/-- One raw deployment object as read by `list_deployments`: optional
counters (`None` when unset), pod-template container images, optional
strategy type. -/
structure RawDeployment where
  name : String
  ns : String
  replicas : Option ℤ := none
  available_replicas : Option ℤ := none
  ready_replicas : Option ℤ := none
  updated_replicas : Option ℤ := none
  container_images : List String := []
  strategy : Option String := none
deriving Repr, DecidableEq

/-- The per-deployment body of the `list_deployments` loop (lines 883-901):
`x or 0` on the counters, image from the first pod-template container
(`"unknown"` when there are none), strategy defaulted to `RollingUpdate`. -/
def mkDeploymentEntry (d : RawDeployment) : DeploymentEntry :=
  { name := d.name
    ns := d.ns
    replicas := d.replicas.getD 0
    available_replicas := d.available_replicas.getD 0
    ready_replicas := d.ready_replicas.getD 0
    updated_replicas := d.updated_replicas.getD 0
    image := d.container_images.headD "unknown"
    strategy := d.strategy.getD "RollingUpdate" }

/-- `KubernetesService._get_demo_deployments` (kubernetes.py lines
1115-1162): a fixed four-entry dataset, filtered by the requested namespace
when one is given (Python truthiness: the empty string, like `None`, skips
the filter). -/
def _get_demo_deployments (ns : Option String) : List DeploymentEntry :=
  let deployments : List DeploymentEntry :=
    [ { name := "frontend", ns := "default", replicas := 3,
        available_replicas := 3, ready_replicas := 3, updated_replicas := 3,
        image := "myapp/frontend:v2.1.0", strategy := "RollingUpdate" },
      { name := "backend-api", ns := "backend", replicas := 5,
        available_replicas := 5, ready_replicas := 5, updated_replicas := 5,
        image := "myapp/api:v1.8.3", strategy := "RollingUpdate" },
      { name := "worker", ns := "backend", replicas := 2,
        available_replicas := 2, ready_replicas := 2, updated_replicas := 2,
        image := "myapp/worker:v1.4.0", strategy := "RollingUpdate" },
      { name := "prometheus", ns := "monitoring", replicas := 1,
        available_replicas := 1, ready_replicas := 1, updated_replicas := 1,
        image := "prom/prometheus:v2.45.0", strategy := "Recreate" } ]
  match ns with
  | some n =>
      if n.toList.isEmpty then deployments
      else deployments.filter (fun d => d.ns == n)
  | none => deployments

/-- `KubernetesService.list_deployments` (kubernetes.py lines 855-907):
demo fallback (namespace-filtered) on load failure or a raising query,
otherwise the mapped live objects. -/
def list_deployments (load_success : Bool) (ns : Option String)
    (fetch : Option (List RawDeployment)) : List DeploymentEntry :=
  if !load_success then _get_demo_deployments ns
  else
    match fetch with
    | none => _get_demo_deployments ns
    | some deps => deps.map mkDeploymentEntry

/-- Result dict of `scale_deployment` (kubernetes.py lines 909-982); `ns`
embeds the `namespace` key, `deployment` the `deployment` key. -/
structure ScaleResult where
  success : Bool
  ns : String
  deployment : String
  previous_replicas : ℤ
  current_replicas : ℤ
  message : String
deriving Repr, DecidableEq

/-- Outcome of the live part of `scale_deployment`: the read succeeds and
the patch succeeds, the read raises (`ApiException` or other) before any
patch, or the patch raises after the read returned `previous`. -/
inductive LiveScale where
  | ok (previous : ℤ)
  | read_api_error (reason : String)
  | read_exc (msg : String)
  | patch_api_error (previous : ℤ) (reason : String)
  | patch_exc (previous : ℤ) (msg : String)
deriving Repr, DecidableEq

/-- `KubernetesService.scale_deployment` (kubernetes.py lines 909-982).
The second component is the replica count passed to
`patch_namespaced_deployment`, `none` when the patch call is never made:
on load failure the demo-mode simulated success is returned without
touching the cluster. -/
def scale_deployment (load_success : Bool) (live : LiveScale)
    (ns name : String) (replicas : ℤ) : ScaleResult × Option ℤ :=
  if !load_success then
    ({ success := true
       ns := ns
       deployment := name
       previous_replicas := 3
       current_replicas := replicas
       message := "Demo mode - scale simulated" }, none)
  else
    match live with
    | LiveScale.ok previous =>
        ({ success := true
           ns := ns
           deployment := name
           previous_replicas := previous
           current_replicas := replicas
           message := "Scaled from " ++ toString previous ++ " to " ++
             toString replicas ++ " replicas" }, some replicas)
    | LiveScale.read_api_error reason =>
        ({ success := false, ns := ns, deployment := name
           previous_replicas := 0, current_replicas := 0
           message := "API error: " ++ reason }, none)
    | LiveScale.read_exc msg =>
        ({ success := false, ns := ns, deployment := name
           previous_replicas := 0, current_replicas := 0
           message := msg }, none)
    | LiveScale.patch_api_error _ reason =>
        ({ success := false, ns := ns, deployment := name
           previous_replicas := 0, current_replicas := 0
           message := "API error: " ++ reason }, some replicas)
    | LiveScale.patch_exc _ msg =>
        ({ success := false, ns := ns, deployment := name
           previous_replicas := 0, current_replicas := 0
           message := msg }, some replicas)

/-- `ScaleRequest` model from `app/api/v1/kubernetes.py` lines 341-344: a
single `replicas: int` field with no declared bounds or validators. -/
structure ScaleRequest where
  replicas : ℤ
deriving Repr, DecidableEq

/-- Route handler `scale_deployment` from `app/api/v1/kubernetes.py` lines
397-430: forwards `request.replicas` to the facade unchanged, with no
bound check of its own. -/
def scale_deployment_route (load_success : Bool) (live : LiveScale)
    (ns name : String) (req : ScaleRequest) : ScaleResult × Option ℤ :=
  scale_deployment load_success live ns name req.replicas

/-- Result dict of `restart_deployment` (kubernetes.py lines 984-1055). -/
structure RestartResult where
  success : Bool
  ns : String
  deployment : String
  message : String
deriving Repr, DecidableEq

/-- Outcome of a single live mutation call: success, `ApiException` with a
reason, or another exception with a message. -/
inductive LiveMut where
  | ok
  | api_error (reason : String)
  | exc (msg : String)
deriving Repr, DecidableEq

/-- `KubernetesService.restart_deployment` (kubernetes.py lines 984-1055);
`now` is the RFC3339 timestamp written into the restartedAt patch. -/
def restart_deployment (load_success : Bool) (live : LiveMut) (now : String)
    (ns name : String) : RestartResult :=
  if !load_success then
    { success := true, ns := ns, deployment := name
      message := "Demo mode - restart simulated" }
  else
    match live with
    | LiveMut.ok =>
        { success := true, ns := ns, deployment := name
          message := "Deployment restart initiated at " ++ now }
    | LiveMut.api_error reason =>
        { success := false, ns := ns, deployment := name
          message := "API error: " ++ reason }
    | LiveMut.exc msg =>
        { success := false, ns := ns, deployment := name, message := msg }

/-- Result dict of `delete_pod` (kubernetes.py lines 1057-1113). -/
structure DeleteResult where
  success : Bool
  ns : String
  pod : String
  message : String
deriving Repr, DecidableEq

/-- `KubernetesService.delete_pod` (kubernetes.py lines 1057-1113). -/
def delete_pod (load_success : Bool) (live : LiveMut)
    (ns name : String) : DeleteResult :=
  if !load_success then
    { success := true, ns := ns, pod := name
      message := "Demo mode - delete simulated" }
  else
    match live with
    | LiveMut.ok =>
        { success := true, ns := ns, pod := name
          message := "Pod " ++ name ++ " deleted successfully" }
    | LiveMut.api_error reason =>
        { success := false, ns := ns, pod := name
          message := "API error: " ++ reason }
    | LiveMut.exc msg =>
        { success := false, ns := ns, pod := name, message := msg }

/-- `NodeMetrics` schema from `app/schemas/kubernetes.py`, floats as ℚ. -/
structure NodeMetrics where
  cpu_usage_percent : ℚ
  cpu_capacity_cores : ℚ
  cpu_allocatable_cores : ℚ
  memory_usage_percent : ℚ
  memory_capacity_bytes : ℤ
  memory_allocatable_bytes : ℤ
  pod_count : ℕ
  pod_capacity : ℤ
deriving Repr, DecidableEq

/-- One item of the metrics-server node listing joined with the data
`get_node_metrics` reads from the node object: `usage.get(...)` and
`capacity/allocatable.get(...)` results (`none` when the key is absent, so
the Python `.get` default applies) plus the scheduled-pod count. -/
structure NodeUsageItem where
  name : String
  cpu : Option String := none
  memory : Option String := none
  cpu_capacity : Option String := none
  mem_capacity : Option String := none
  cpu_allocatable : Option String := none
  pods_allocatable : Option String := none
  pod_count : ℕ := 0
deriving Repr, DecidableEq

/-- The per-node body of the `get_node_metrics` loop (kubernetes.py lines
481-544): usage and capacity parsing, percentage computation guarded by a
positive capacity, clamping with `min(_, 100)`; `none` models any raise
inside the loop (which the enclosing handler turns into an empty dict).
The allocatable-CPU default `str(cpu_capacity)` re-parses to the capacity
value itself, and both memory fields are set from `mem_capacity` as in the
source. -/
def node_item_metrics (it : NodeUsageItem) : Option NodeMetrics := do
  let cpu_cores ← parse_cpu (it.cpu.getD "0")
  let mem_bytes ← parse_memory (it.memory.getD "0")
  let cpu_capacity ← pyFloat (it.cpu_capacity.getD "1")
  let mem_capacity ← parse_memory_capacity (it.mem_capacity.getD "0")
  let cpu_percent := if cpu_capacity > 0 then cpu_cores / cpu_capacity * 100 else 0
  let mem_percent :=
    if mem_capacity > 0 then (mem_bytes : ℚ) / (mem_capacity : ℚ) * 100 else 0
  let pod_capacity ← pyInt (it.pods_allocatable.getD "110")
  let cpu_allocatable ←
    match it.cpu_allocatable with
    | some s => pyFloat s
    | none => pure cpu_capacity
  pure { cpu_usage_percent := min cpu_percent 100
         cpu_capacity_cores := cpu_capacity
         cpu_allocatable_cores := cpu_allocatable
         memory_usage_percent := min mem_percent 100
         memory_capacity_bytes := mem_capacity
         memory_allocatable_bytes := mem_capacity
         pod_count := it.pod_count
         pod_capacity := pod_capacity }

/-- `KubernetesService.get_node_metrics` (kubernetes.py lines 452-550):
empty dict when credential resolution fails, when the metrics listing
raises (`fetch = none`, e.g. metrics-server absent), or when any raise
inside the loop reaches the enclosing handler; otherwise one entry per
node keyed by name. -/
def get_node_metrics (load_success : Bool)
    (fetch : Option (List NodeUsageItem)) : List (String × NodeMetrics) :=
  if !load_success then []
  else
    match fetch with
    | none => []
    | some items =>
      match items.mapM (fun it =>
          (node_item_metrics it).map (fun m => (it.name, m))) with
      | none => []
      | some result => result

/-- One container of a metrics-server pod item: the `usage.get(...)`
results. -/
structure PodUsageContainer where
  cpu : Option String := none
  memory : Option String := none
deriving Repr, DecidableEq

/-- One item of the metrics-server pod listing. -/
structure PodUsageItem where
  name : String
  ns : String
  containers : List PodUsageContainer := []
deriving Repr, DecidableEq

/-- Value dict of one `get_pod_metrics` entry. -/
structure PodMetricsEntry where
  cpu_cores : ℚ
  memory_bytes : ℤ
  containers : ℕ
deriving Repr, DecidableEq

/-- The per-pod body of the `get_pod_metrics` loop (kubernetes.py lines
588-623): per-container CPU/memory sums; `none` models a raise inside the
loop. -/
def pod_item_metrics (it : PodUsageItem) : Option PodMetricsEntry := do
  let totals ← it.containers.foldlM (fun (acc : ℚ × ℤ) c => do
    let cpu ← parse_cpu_pod (c.cpu.getD "0")
    let mem ← parse_memory (c.memory.getD "0")
    pure (acc.1 + cpu, acc.2 + mem)) ((0 : ℚ), (0 : ℤ))
  pure { cpu_cores := totals.1
         memory_bytes := totals.2
         containers := it.containers.length }

/-- `KubernetesService.get_pod_metrics` (kubernetes.py lines 552-629):
empty dict on load failure or any raise, else entries keyed
`namespace/name`. The namespace filter only selects which listing produced
`fetch`. -/
def get_pod_metrics (load_success : Bool)
    (fetch : Option (List PodUsageItem)) : List (String × PodMetricsEntry) :=
  if !load_success then []
  else
    match fetch with
    | none => []
    | some items =>
      match items.mapM (fun it =>
          (pod_item_metrics it).map (fun m => (it.ns ++ "/" ++ it.name, m))) with
      | none => []
      | some result => result

/-- A three-context environment in which only the middle context's live
lookup raises: the partial-failure scenario of §4.4. -/
def threeContextEnv : ClustersEnv :=
  { k8s_available := true
    kubeconfig_path := some "/cfg/kubeconfig"
    path_exists := fun _ => true
    list_contexts := some
      [ { name := "ctx-a", cluster := "cluster-a" },
        { name := "ctx-b", cluster := "cluster-b" },
        { name := "ctx-c", cluster := "cluster-c" } ]
    live := fun context =>
      if context == "ctx-b" then Except.error "connection refused"
      else Except.ok { major := "1", minor := "28", node_count := 3,
                       namespace_count := 8, pod_count := 24 } }

/-!
Theorems. Helper lemmas come first; they are shared across claims.
-/

/-- In the `Option` monad, one failing element makes the whole `mapM`
fail: the loop counterpart of one raised exception aborting a whole
Python `for` body. -/
theorem mapM_option_eq_none {α β : Type} (f : α → Option β) :
    ∀ (l : List α) (a : α), a ∈ l → f a = none → l.mapM f = none := by
  intro l
  induction l with
  | nil => intro a ha _; cases ha
  | cons x xs ih =>
    intro a ha hf
    rw [List.mapM_cons]
    rcases List.mem_cons.mp ha with h | h
    · subst h; rw [hf]; rfl
    · cases hx : f x with
      | none => rfl
      | some b =>
        show (xs.mapM f >>= fun l => pure (b :: l)) = none
        rw [ih a h hf]
        rfl

/-- C4: the quantity parsing used for metrics satisfies the reference
conversions. CPU: suffix `n` divides the body by 1e9, suffix `m` divides it
by 1000, no suffix parses as float cores; memory: suffixes `Ki`/`Mi`/`Gi`
multiply the body by 1024, 1024², 1024³, and an all-digit unsuffixed string
parses as integer bytes. Reference values: `1500m` ↦ 1.5, `2` ↦ 2.0,
`500000000n` ↦ 0.5, `1Gi` ↦ 1073741824, `512Mi` ↦ 536870912,
`2048` ↦ 2048. -/
theorem claim_C4_quantity_parsing :
    (∀ s, strEndsWith s "n" = true →
      parse_cpu s = (pyFloat (strDropRight s 1)).map (fun x => x / 1000000000)) ∧
    (∀ s, strEndsWith s "n" = false → strEndsWith s "m" = true →
      parse_cpu s = (pyFloat (strDropRight s 1)).map (fun x => x / 1000)) ∧
    (∀ s, strEndsWith s "n" = false → strEndsWith s "m" = false →
      parse_cpu s = pyFloat s) ∧
    (∀ s, strEndsWith s "Ki" = true →
      parse_memory s = (pyInt (strDropRight s 2)).map (fun x => x * 1024)) ∧
    (∀ s, strEndsWith s "Ki" = false → strEndsWith s "Mi" = true →
      parse_memory s = (pyInt (strDropRight s 2)).map (fun x => x * (1024 * 1024))) ∧
    (∀ s, strEndsWith s "Ki" = false → strEndsWith s "Mi" = false →
      strEndsWith s "Gi" = true →
      parse_memory s = (pyInt (strDropRight s 2)).map (fun x => x * (1024 * 1024 * 1024))) ∧
    (∀ s, strEndsWith s "Ki" = false → strEndsWith s "Mi" = false →
      strEndsWith s "Gi" = false → isDigitStr s = true → parse_memory s = pyInt s) ∧
    parse_cpu "1500m" = some (3 / 2) ∧
    parse_cpu "2" = some 2 ∧
    parse_cpu "500000000n" = some (1 / 2) ∧
    parse_memory "1Gi" = some 1073741824 ∧
    parse_memory "512Mi" = some 536870912 ∧
    parse_memory "2048" = some 2048 := by
  refine ⟨?_, ?_, ?_, ?_, ?_, ?_, ?_, ?_, ?_, ?_, ?_, ?_, ?_⟩
  · intro s h; simp [parse_cpu, h]
  · intro s h1 h2; simp [parse_cpu, h1, h2]
  · intro s h1 h2; simp [parse_cpu, h1, h2]
  · intro s h; simp [parse_memory, h]
  · intro s h1 h2; simp [parse_memory, h1, h2]
  · intro s h1 h2 h3; simp [parse_memory, h1, h2, h3]
  · intro s h1 h2 h3 h4; simp [parse_memory, h1, h2, h3, h4]
  · rw [parse_cpu, if_neg (by decide), if_pos (by decide), pyFloat,
      (by decide : strDropRight "1500m" 1 = "1500"),
      (by decide : pyFloatParse "1500" = some (false, 1500, 0, 0))]
    norm_num [floatVal]
  · rw [parse_cpu, if_neg (by decide), if_neg (by decide), pyFloat,
      (by decide : pyFloatParse "2" = some (false, 2, 0, 0))]
    norm_num [floatVal]
  · rw [parse_cpu, if_pos (by decide), pyFloat,
      (by decide : strDropRight "500000000n" 1 = "500000000"),
      (by decide : pyFloatParse "500000000" = some (false, 500000000, 0, 0))]
    norm_num [floatVal]
  · decide
  · decide
  · decide

/-- C4 witness: the suffix clauses and the digit clause applied at concrete
strings. -/
theorem claim_C4_witness :
    strEndsWith "1500m" "m" = true ∧
    parse_cpu "1500m" = (pyFloat (strDropRight "1500m" 1)).map (fun x => x / 1000) ∧
    isDigitStr "2048" = true ∧
    parse_memory "2048" = pyInt "2048" := by
  refine ⟨by decide, ?_, by decide, ?_⟩
  · exact claim_C4_quantity_parsing.2.1 "1500m" (by decide) (by decide)
  · exact claim_C4_quantity_parsing.2.2.2.2.2.2.1 "2048"
      (by decide) (by decide) (by decide) (by decide)

/-- C3: every pod built by the live branch of `get_pods` carries the
status derived from its phase (Running/Succeeded healthy, Pending pending,
Failed error, else unknown), overridden to warning whenever the summed
container restart count exceeds 5. -/
theorem claim_C3_pod_status_derivation :
    (∀ (ns : Option String) (pods : List RawPod),
      get_pods true ns (some pods) = pods.map mkPodInfo) ∧
    (∀ pod : RawPod, (mkPodInfo pod).restart_count =
      (pod.container_statuses.map (fun cs => cs.restart_count)).sum) ∧
    (∀ pod : RawPod, 5 < (mkPodInfo pod).restart_count →
      (mkPodInfo pod).status = ResourceStatus.warning) ∧
    (∀ pod : RawPod, (mkPodInfo pod).restart_count ≤ 5 →
      (mkPodInfo pod).status =
        match pod.phase with
        | PodPhase.running => ResourceStatus.healthy
        | PodPhase.succeeded => ResourceStatus.healthy
        | PodPhase.pending => ResourceStatus.pending
        | PodPhase.failed => ResourceStatus.error
        | PodPhase.unknown => ResourceStatus.unknown) := by
  refine ⟨?_, ?_, ?_, ?_⟩
  · intro ns pods; simp [get_pods]
  · intro pod; rfl
  · intro pod h
    have h6 : 5 < (pod.container_statuses.map (fun cs => cs.restart_count)).sum := h
    simp [mkPodInfo, derive_pod_status, h6]
  · intro pod h
    have h6 : ¬5 < (pod.container_statuses.map (fun cs => cs.restart_count)).sum :=
      Nat.not_lt.mpr h
    cases hp : pod.phase <;> simp [mkPodInfo, derive_pod_status, h6, hp]

/-- C3 witness: a Running pod whose containers restarted 4 and 2 times has
summed restart count 6 and derived status warning, not healthy. -/
theorem claim_C3_witness :
    ∃ pod : RawPod, pod.phase = PodPhase.running ∧
      (mkPodInfo pod).restart_count = 6 ∧
      (mkPodInfo pod).status = ResourceStatus.warning ∧
      (mkPodInfo pod).status ≠ ResourceStatus.healthy := by
  refine ⟨{ name := "api-0", ns := "default", phase := PodPhase.running,
            container_statuses :=
              [{ name := "api", ready := true, restart_count := 4,
                 state := { running := true, waiting_reason := none,
                            terminated_reason := none }, image := "api:v1" },
               { name := "sidecar", ready := true, restart_count := 2,
                 state := { running := true, waiting_reason := none,
                            terminated_reason := none }, image := "sc:v1" }] },
          rfl, by decide, ?_, ?_⟩
  · exact claim_C3_pod_status_derivation.2.2.1 _ (by decide)
  · rw [claim_C3_pod_status_derivation.2.2.1 _ (by decide)]; decide

/-- C5 counterexample: a CPU quantity with an unparseable body does not
yield 0 — the `float` call raises (`none` in the embedding), and via the
fetch-level handler the one bad sample empties the whole node-metrics
result even though a well-formed sample is present. -/
theorem claim_C5_counterexample :
    parse_cpu "abc" = none ∧
    parse_cpu "abc" ≠ some 0 ∧
    get_node_metrics true
      (some [{ name := "node-bad", cpu := some "abc" },
             { name := "node-good", cpu := some "250m",
               memory := some "1Gi", cpu_capacity := some "4",
               mem_capacity := some "8Gi" }]) = [] := by
  refine ⟨by decide, by decide, ?_⟩
  rw [get_node_metrics]
  rw [mapM_option_eq_none _ _ { name := "node-bad", cpu := some "abc" }
    (by simp) (by decide)]
  rfl

/-- C5 as amended: only an unsuffixed memory string with a non-digit body
silently yields 0; a malformed CPU body (or a malformed suffixed memory
body) raises instead, and the exception is caught only by the fetch-level
handler, so one bad sample aborts the whole metrics fetch, which returns an
empty mapping rather than the good samples. -/
theorem claim_C5_amended :
    (∀ s, strEndsWith s "Ki" = false → strEndsWith s "Mi" = false →
      strEndsWith s "Gi" = false → isDigitStr s = false →
      parse_memory s = some 0) ∧
    parse_cpu "abc" = none ∧
    parse_memory "abKi" = none ∧
    (∀ (items : List NodeUsageItem) (it : NodeUsageItem), it ∈ items →
      node_item_metrics it = none → get_node_metrics true (some items) = []) ∧
    (∀ (items : List PodUsageItem) (it : PodUsageItem), it ∈ items →
      pod_item_metrics it = none → get_pod_metrics true (some items) = []) := by
  refine ⟨?_, by decide, by decide, ?_, ?_⟩
  · intro s h1 h2 h3 h4; simp [parse_memory, h1, h2, h3, h4]
  · intro items it hm hn
    rw [get_node_metrics]
    rw [mapM_option_eq_none _ _ it hm (by rw [hn]; rfl)]
    rfl
  · intro items it hm hn
    rw [get_pod_metrics]
    rw [mapM_option_eq_none _ _ it hm (by rw [hn]; rfl)]
    rfl

/-- C5 amended witness: the silent-zero clause at a concrete malformed
unsuffixed memory string, and the abort clause at a concrete listing whose
first sample has a malformed CPU body. -/
theorem claim_C5_amended_witness :
    parse_memory "oops" = some 0 ∧
    get_node_metrics true
      (some [{ name := "n1", cpu := some "12x" }]) = [] := by
  constructor
  · exact claim_C5_amended.1 "oops" (by decide) (by decide) (by decide) (by decide)
  · exact claim_C5_amended.2.2.2.1 _ { name := "n1", cpu := some "12x" }
      (by simp) (by decide)

end PlatformOps

namespace PlatformOps

/-- C2: whenever the client library is unavailable, the kubeconfig path is
unset or does not exist, context enumeration raises, or enumeration yields
zero contexts, `get_clusters` returns exactly the two-entry demo set
(demo-local connected, demo-staging disconnected), and it never returns an
empty list. -/
theorem claim_C2_demo_fallback :
    (∀ env : ClustersEnv, env.k8s_available = false →
      get_clusters env = _get_demo_clusters) ∧
    (∀ env : ClustersEnv, env.kubeconfig_path = none →
      get_clusters env = _get_demo_clusters) ∧
    (∀ (env : ClustersEnv) (p : String), env.kubeconfig_path = some p →
      env.path_exists p = false → get_clusters env = _get_demo_clusters) ∧
    (∀ env : ClustersEnv, env.list_contexts = none →
      get_clusters env = _get_demo_clusters) ∧
    (∀ env : ClustersEnv, env.list_contexts = some [] →
      get_clusters env = _get_demo_clusters) ∧
    _get_demo_clusters.map (fun c => (c.name, c.status)) =
      [("demo-local", ClusterStatus.connected),
       ("demo-staging", ClusterStatus.disconnected)] ∧
    (∀ env : ClustersEnv, get_clusters env ≠ []) := by
  refine ⟨?_, ?_, ?_, ?_, ?_, rfl, ?_⟩
  · intro env h; simp [get_clusters, h]
  · intro env h
    cases hk : env.k8s_available <;> simp [get_clusters, hk, h]
  · intro env p hp hx
    cases hk : env.k8s_available <;> simp [get_clusters, hk, hp, hx]
  · intro env h
    cases hk : env.k8s_available
    · simp [get_clusters, hk]
    · cases hp : env.kubeconfig_path with
      | none => simp [get_clusters, hk, hp]
      | some p =>
        cases hx : env.path_exists p <;> simp [get_clusters, hk, hp, hx, h]
  · intro env h
    cases hk : env.k8s_available
    · simp [get_clusters, hk]
    · cases hp : env.kubeconfig_path with
      | none => simp [get_clusters, hk, hp]
      | some p =>
        cases hx : env.path_exists p <;> simp [get_clusters, hk, hp, hx, h]
  · intro env
    cases hk : env.k8s_available
    · simp [get_clusters, hk, _get_demo_clusters]
    · cases hp : env.kubeconfig_path with
      | none => simp [get_clusters, hk, hp, _get_demo_clusters]
      | some p =>
        cases hx : env.path_exists p
        · simp [get_clusters, hk, hp, hx, _get_demo_clusters]
        · cases hc : env.list_contexts with
          | none => simp [get_clusters, hk, hp, hx, hc, _get_demo_clusters]
          | some contexts =>
            simp only [get_clusters, hk, hp, hx, hc, Bool.not_true]
            by_cases he : contexts = []
            · simp [he, _get_demo_clusters]
            · simp [he, _get_demo_clusters]

/-- C2 witness: the fallback clause applied at an environment whose
kubeconfig path resolves to nothing. -/
theorem claim_C2_witness :
    get_clusters { k8s_available := true, kubeconfig_path := none,
                   path_exists := fun _ => false, list_contexts := none,
                   live := fun _ => Except.error "unreachable" } =
      _get_demo_clusters ∧
    _get_demo_clusters.length = 2 :=
  ⟨claim_C2_demo_fallback.2.1 _ rfl, rfl⟩

/-- C6: with a readable kubeconfig listing `contexts`, `get_clusters`
returns one entry per context; an entry whose live lookup raises gets
status error carrying the reason, while an entry whose lookup succeeds is
connected — one bad context never affects its siblings or aborts the
listing. -/
theorem claim_C6_partial_failure_isolation
    (env : ClustersEnv) (p : String) (contexts : List KubeContext)
    (hk : env.k8s_available = true) (hp : env.kubeconfig_path = some p)
    (hx : env.path_exists p = true) (hc : env.list_contexts = some contexts)
    (hne : contexts ≠ []) :
    (get_clusters env).length = contexts.length ∧
    (∀ (i : ℕ) (ctx : KubeContext), contexts[i]? = some ctx →
      ∃ entry : ClusterInfo, (get_clusters env)[i]? = some entry ∧
        entry.context = ctx.name ∧ entry.name = ctx.cluster ∧
        (∀ e, env.live ctx.name = Except.error e →
          entry.status = ClusterStatus.error ∧ entry.error = some e) ∧
        (∀ s, env.live ctx.name = Except.ok s →
          entry.status = ClusterStatus.connected ∧ entry.error = none)) := by
  have hmain : get_clusters env = contexts.map (fun ctx =>
      { _get_cluster_info env ctx.name with
          name := ctx.cluster, context := ctx.name }) := by
    simp [get_clusters, hk, hp, hx, hc, hne]
  constructor
  · rw [hmain, List.length_map]
  · intro i ctx hi
    refine ⟨{ _get_cluster_info env ctx.name with
               name := ctx.cluster, context := ctx.name }, ?_, rfl, rfl, ?_, ?_⟩
    · rw [hmain, List.getElem?_map, hi]; rfl
    · intro e he; simp [_get_cluster_info, he]
    · intro s hs; simp [_get_cluster_info, hs]

/-- C6 witness: three contexts where the second context's lookup raises:
three entries come back, the second with status error and the reason, the
others connected. -/
theorem claim_C6_witness :
    (get_clusters threeContextEnv).length = 3 ∧
    (∃ e, (get_clusters threeContextEnv)[0]? = some e ∧
      e.status = ClusterStatus.connected) ∧
    (∃ e, (get_clusters threeContextEnv)[1]? = some e ∧
      e.status = ClusterStatus.error ∧ e.error = some "connection refused") ∧
    (∃ e, (get_clusters threeContextEnv)[2]? = some e ∧
      e.status = ClusterStatus.connected) := by
  have h := claim_C6_partial_failure_isolation threeContextEnv "/cfg/kubeconfig"
    [ { name := "ctx-a", cluster := "cluster-a" },
      { name := "ctx-b", cluster := "cluster-b" },
      { name := "ctx-c", cluster := "cluster-c" } ]
    rfl rfl rfl rfl (by simp)
  refine ⟨h.1, ?_, ?_, ?_⟩
  · obtain ⟨e, he, -, -, -, hok⟩ :=
      h.2 0 { name := "ctx-a", cluster := "cluster-a" } rfl
    exact ⟨e, he, (hok _ rfl).1⟩
  · obtain ⟨e, he, -, -, herr, -⟩ :=
      h.2 1 { name := "ctx-b", cluster := "cluster-b" } rfl
    exact ⟨e, he, (herr _ rfl).1, (herr _ rfl).2⟩
  · obtain ⟨e, he, -, -, -, hok⟩ :=
      h.2 2 { name := "ctx-c", cluster := "cluster-c" } rfl
    exact ⟨e, he, (hok _ rfl).1⟩

/-- C7: credential resolution order. A configured connection-file path that
does not exist on disk fails with the path-specific reason; the result
never depends on the in-cluster outcome once any path is configured;
in-cluster credentials are attempted only when no path resolves at all, and
when they also fail the reason is the fixed no-kubeconfig message (the code
capitalizes its first word). -/
theorem claim_C7_resolution_order :
    (∀ (env : LoadEnv) (p : String), env.k8s_available = true →
      env.kubeconfig_default = some p → env.path_exists p = false →
      _load_kubeconfig env = (false, some ("Kubeconfig not found at " ++ p))) ∧
    (∀ (env : LoadEnv) (b : Bool) (p : String), kubeconfig_path env = some p →
      _load_kubeconfig { env with in_cluster_ok := b } = _load_kubeconfig env) ∧
    (∀ env : LoadEnv, env.k8s_available = true → kubeconfig_path env = none →
      env.in_cluster_ok = false →
      _load_kubeconfig env =
        (false, some "No kubeconfig found and not running in-cluster")) ∧
    (∀ env : LoadEnv, env.k8s_available = true → kubeconfig_path env = none →
      env.in_cluster_ok = true → _load_kubeconfig env = (true, none)) := by
  refine ⟨?_, ?_, ?_, ?_⟩
  · intro env p hk hd hx
    have hpath : kubeconfig_path env = some p := by simp [kubeconfig_path, hd]
    simp [_load_kubeconfig, hk, hpath, hx]
  · intro env b p hp
    have hp2 : kubeconfig_path { env with in_cluster_ok := b } = some p := hp
    simp only [_load_kubeconfig, hp, hp2]
  · intro env hk hpath hic
    simp [_load_kubeconfig, hk, hpath, hic]
  · intro env hk hpath hic
    simp [_load_kubeconfig, hk, hpath, hic]

/-- C7 witness: a configured-but-missing path fails path-specifically even
though in-cluster credentials would have succeeded, and with no path at all
plus failing in-cluster credentials the fixed message is returned. -/
theorem claim_C7_witness :
    _load_kubeconfig { k8s_available := true,
                       kubeconfig_default := some "/missing/kubeconfig",
                       path_exists := fun _ => false, in_cluster_ok := true,
                       load_kube_ok := true, load_error := "" } =
      (false, some "Kubeconfig not found at /missing/kubeconfig") ∧
    _load_kubeconfig { k8s_available := true, kubeconfig_default := none,
                       path_exists := fun _ => false, in_cluster_ok := false,
                       load_kube_ok := true, load_error := "" } =
      (false, some "No kubeconfig found and not running in-cluster") := by
  constructor
  · exact claim_C7_resolution_order.1 _ "/missing/kubeconfig" rfl rfl rfl
  · exact claim_C7_resolution_order.2.2.1 _ rfl rfl rfl

end PlatformOps

namespace PlatformOps

/-- C1 counterexample: a scale request with replicas=150 is not rejected
anywhere on the caller side — with resolved credentials and a successful
read, the route reaches the facade's live patch call, which is invoked
with 150 (the second component records the replica count passed to the
patch operation). -/
theorem claim_C1_counterexample :
    (scale_deployment_route true (LiveScale.ok 3) "default" "frontend"
      { replicas := 150 }).2 = some 150 ∧
    (scale_deployment_route true (LiveScale.ok 3) "default" "frontend"
      { replicas := 150 }).2 ≠ none :=
  ⟨rfl, by decide⟩

/-- C1 as amended: no caller-side bound check exists. `ScaleRequest`
declares `replicas` with no bounds, the route forwards it to the facade
unchanged for every value, and whenever credentials resolve and the read
succeeds the live patch is invoked with exactly the requested count
(150 included); the patch is skipped only when credential resolution
fails, in which case a simulated success echoing the requested count is
returned. -/
theorem claim_C1_amended_no_bound_check :
    (∀ (load : Bool) (live : LiveScale) (ns name : String) (req : ScaleRequest),
      scale_deployment_route load live ns name req =
        scale_deployment load live ns name req.replicas) ∧
    (∀ (ns name : String) (prev replicas : ℤ),
      (scale_deployment true (LiveScale.ok prev) ns name replicas).2 =
        some replicas) ∧
    (∀ (ns name : String) (replicas : ℤ) (live : LiveScale),
      (scale_deployment false live ns name replicas).2 = none ∧
      (scale_deployment false live ns name replicas).1.success = true ∧
      (scale_deployment false live ns name replicas).1.current_replicas =
        replicas) :=
  ⟨fun _ _ _ _ _ => rfl, fun _ _ _ _ => rfl, fun _ _ _ _ => ⟨rfl, rfl, rfl⟩⟩

/-- C8: every mutation returns a simulated success carrying its demo-mode
message when credential resolution fails — reads degrade to demo data,
writes to demo success — and the scale patch is never reached there. -/
theorem claim_C8_demo_write_success :
    ∀ (ns name now : String) (replicas : ℤ) (live : LiveScale) (lm : LiveMut),
      (scale_deployment false live ns name replicas).1.success = true ∧
      (scale_deployment false live ns name replicas).1.message =
        "Demo mode - scale simulated" ∧
      (scale_deployment false live ns name replicas).2 = none ∧
      (restart_deployment false lm now ns name).success = true ∧
      (restart_deployment false lm now ns name).message =
        "Demo mode - restart simulated" ∧
      (delete_pod false lm ns name).success = true ∧
      (delete_pod false lm ns name).message = "Demo mode - delete simulated" :=
  fun _ _ _ _ _ _ => ⟨rfl, rfl, rfl, rfl, rfl, rfl, rfl⟩

/-- C9: both metrics queries return the empty mapping on every failure:
failed credential resolution, a raising listing call (metrics aggregation
endpoint absent), or any raise while processing items — never a demo
dataset and never a propagated error. -/
theorem claim_C9_metrics_empty_on_failure :
    (∀ fetch, get_node_metrics false fetch = []) ∧
    (∀ fetch, get_pod_metrics false fetch = []) ∧
    get_node_metrics true none = [] ∧
    get_pod_metrics true none = [] ∧
    (∀ (items : List NodeUsageItem) (it : NodeUsageItem), it ∈ items →
      node_item_metrics it = none → get_node_metrics true (some items) = []) ∧
    (∀ (items : List PodUsageItem) (it : PodUsageItem), it ∈ items →
      pod_item_metrics it = none → get_pod_metrics true (some items) = []) := by
  refine ⟨fun _ => rfl, fun _ => rfl, rfl, rfl, ?_, ?_⟩
  · intro items it hm hn
    rw [get_node_metrics]
    rw [mapM_option_eq_none _ _ it hm (by rw [hn]; rfl)]
    rfl
  · intro items it hm hn
    rw [get_pod_metrics]
    rw [mapM_option_eq_none _ _ it hm (by rw [hn]; rfl)]
    rfl

/-- C9 witness: empty mapping on a failed resolution, on a raising listing,
and on a listing whose only item has an unparseable CPU body. -/
theorem claim_C9_witness :
    get_node_metrics false (some [{ name := "n1" }]) = [] ∧
    get_pod_metrics true none = [] ∧
    get_node_metrics true (some [{ name := "n1", cpu := some "bogus" }]) = [] := by
  refine ⟨claim_C9_metrics_empty_on_failure.1 _,
    claim_C9_metrics_empty_on_failure.2.2.2.1, ?_⟩
  exact claim_C9_metrics_empty_on_failure.2.2.2.2.1 _
    { name := "n1", cpu := some "bogus" } (by simp) (by decide)

/-- C10: on failed credential resolution `get_pods` returns the fixed
four-pod demo list for every namespace argument — unfiltered, spanning
namespaces default, backend and cache, so a fallback response can contain
pods outside the requested namespace — whereas the demo fallback of
`list_deployments` does filter its fixed dataset by the requested
(nonempty) namespace. -/
theorem claim_C10_fallback_filter_asymmetry :
    (∀ (ns : Option String) (fetch : Option (List RawPod)),
      get_pods false ns fetch = _get_demo_pods) ∧
    _get_demo_pods.map (fun p => p.ns) = ["default", "backend", "cache", "default"] ∧
    (∃ p ∈ get_pods false (some "default") none, p.ns ≠ "default") ∧
    (∀ (n : String) (fetch : Option (List RawDeployment)),
      n.toList.isEmpty = false →
      ∀ d ∈ list_deployments false (some n) fetch, d.ns = n) := by
  refine ⟨fun _ _ => rfl, rfl, ?_, ?_⟩
  · refine ⟨_get_demo_pods.get ⟨1, by decide⟩, ?_, by decide⟩
    show _get_demo_pods.get ⟨1, by decide⟩ ∈ _get_demo_pods
    exact List.get_mem _ _ _
  · intro n fetch hn d hd
    have hd2 : d ∈ (_get_demo_deployments (some n)) := hd
    rw [_get_demo_deployments] at hd2
    simp only [hn, Bool.false_eq_true, if_false, List.mem_filter] at hd2
    simpa using hd2.2

/-- C10 witness: with namespace backend, the pods fallback still returns
the full demo list while every deployment in the deployments fallback lies
in backend. -/
theorem claim_C10_witness :
    get_pods false (some "backend") none = _get_demo_pods ∧
    (list_deployments false (some "backend") none).all
      (fun d => d.ns == "backend") = true := by
  refine ⟨claim_C10_fallback_filter_asymmetry.1 (some "backend") none, ?_⟩
  rw [List.all_eq_true]
  intro d hd
  have h := claim_C10_fallback_filter_asymmetry.2.2.2 "backend" none rfl d hd
  simpa using h

end PlatformOps
